import Mathlib

/-!
A shallow embedding of the `iced` wgpu triangle pipeline
(`src/wgpu/src/triangle.rs`) and its MSAA resolver
(`src/wgpu/src/triangle/msaa.rs`).

GPU resources (buffers, textures, views, bind groups, pipelines, shader
modules, layouts, samplers) are modelled as natural-number handles drawn
from a monotone counter held by the `Device`.  Creating a resource
consumes a fresh id; buffer creations are additionally logged together
with their byte size, which serves as the allocation counter the spec
mentions.  Commands recorded on a `wgpu::CommandEncoder` / render pass
are modelled as an explicit list of `GpuCmd` values.

Machine integers: `usize`/`u64` values stay `Nat` (the `as u64` casts of
`usize` products are lossless on the 64-bit platform the crate targets);
the one place the source truncates — the `as u32` cast of the dynamic
uniform offset — is modelled with an explicit `% 2^32`.

`f32` scalars (vertex positions, colors, clip rectangles, scale factors)
are modelled over `ℚ`; no claim inspects floating-point rounding.
-/

namespace Iced

/-- The GPU device, modelled as a fresh-id source plus a log of buffer
allocations `(handle, byteSize)` in allocation order.  `wgpu::Device`
hands out independent objects; only identity and allocation count matter
to the claims. -/
structure Device where
  nextId : Nat
  bufferAllocs : List (Nat × Nat)
deriving DecidableEq

/-- Allocate a raw GPU buffer of `byteSize` bytes: returns a fresh handle
and logs the allocation (models `wgpu::Device::create_buffer` and
`create_buffer_with_data`, whose contents are irrelevant to the claims). -/
def Device.createBufferRaw (d : Device) (byteSize : Nat) : Nat × Device :=
  (d.nextId, ⟨d.nextId + 1, d.bufferAllocs ++ [(d.nextId, byteSize)]⟩)

/-- Allocate a non-buffer GPU object (layout, shader module, pipeline,
sampler, texture, texture view, bind group): a fresh handle. -/
def Device.freshId (d : Device) : Nat × Device :=
  (d.nextId, ⟨d.nextId + 1, d.bufferAllocs⟩)

/-- Bits of `wgpu::BufferUsage` that appear in the source. -/
inductive BufferUsageFlag where
  | UNIFORM
  | VERTEX
  | INDEX
  | COPY_DST
  | COPY_SRC
deriving DecidableEq

/-- A usage-flag set (`wgpu::BufferUsage` value). -/
abbrev BufferUsage := List BufferUsageFlag

/-! ### Element sizes

`std::mem::size_of` values for the element types of the three growable
buffers.  `Vertex2D` lives in `iced_graphics` (outside `src/`); its
layout is fixed by the spec: position = 2×f32 at offset 0, color = 4×f32
at offset 8, stride 24 bytes. -/

/-- The value of `size_of::<f32>()`. -/
def f32_size : Nat := 4

/-- The value of `size_of::<u32>()`. -/
def u32_size : Nat := 4

/-- The value of `size_of::<Vertex2D>()` (spec: stride = 24 bytes). -/
def vertex2d_size : Nat := 24

/-- Byte size of the `transform: [f32; 16]` field of `Uniforms`. -/
def uniforms_transform_size : Nat := 16 * f32_size

/-- Byte size of the `_padding_a: [f32; 32]` field of `Uniforms`. -/
def uniforms_padding_a_size : Nat := 32 * f32_size

/-- Byte size of the `_padding_b: [f32; 16]` field of `Uniforms`. -/
def uniforms_padding_b_size : Nat := 16 * f32_size

/-- The value of `size_of::<Uniforms>()`: a `#[repr(C)]` struct of consecutive f32
arrays, so the size is the sum of the field sizes. -/
def uniforms_size : Nat :=
  uniforms_transform_size + uniforms_padding_a_size + uniforms_padding_b_size

/-- The constant `UNIFORM_BUFFER_SIZE` (initial uniform-buffer element capacity). -/
def UNIFORM_BUFFER_SIZE : Nat := 100

/-- The constant `VERTEX_BUFFER_SIZE` (initial vertex-buffer element capacity). -/
def VERTEX_BUFFER_SIZE : Nat := 10000

/-- The constant `INDEX_BUFFER_SIZE` (initial index-buffer element capacity). -/
def INDEX_BUFFER_SIZE : Nat := 10000

/-- The growable typed buffer `Buffer<T>` of `triangle.rs`.  The phantom
element type `T` is represented by its `size_of`, which is all the
source ever uses of it. -/
structure Buffer where
  raw : Nat
  size : Nat
  usage : BufferUsage
  elemSize : Nat
deriving DecidableEq

/-- Models `Buffer::<T>::new(device, size, usage)`. -/
def Buffer.new (device : Device) (elemSize : Nat) (size : Nat)
    (usage : BufferUsage) : Buffer × Device :=
  let r := device.createBufferRaw (elemSize * size)
  (⟨r.1, size, usage, elemSize⟩, r.2)

/-- Models `Buffer::<T>::ensure_capacity(&mut self, device, size)`: reallocate
(fresh handle, byte size `size_of::<T>() * size`, same usage) only when
the current element capacity is smaller than the request. -/
def Buffer.ensure_capacity (b : Buffer) (device : Device) (size : Nat) :
    Buffer × Device :=
  if b.size < size then
    let r := device.createBufferRaw (b.elemSize * size)
    (⟨r.1, size, b.usage, b.elemSize⟩, r.2)
  else
    (b, device)

/-! ### Transformations, uniforms, meshes

`crate::Transformation` and `iced_graphics::{layer::Mesh, triangle::Mesh2D,
Vertex2D, Rectangle}` are defined outside `src/`. -/

/-- Modelled from the spec: `crate::Transformation` (a 4×4 f32 matrix
outside `src/`).  Only the compositional structure `global ∘ translate`
matters to the claims, so transformations are kept as a syntax tree of
the operations the core applies. -/
inductive Transformation where
  | identity
  | translate (x y : ℚ)
  | mul (a b : Transformation)
deriving DecidableEq

/-- The per-mesh GPU uniform record (`Uniforms`): the transform plus
256-byte padding (the padding holds zeroes and carries no information). -/
structure Uniforms where
  transform : Transformation
deriving DecidableEq

/-- Models the `From<Transformation>` conversion into `Uniforms`. -/
def Uniforms.ofTransformation (t : Transformation) : Uniforms := ⟨t⟩

/-- Modelled from the spec: `iced_graphics::Vertex2D` — position (2×f32)
and color (4×f32). -/
structure Vertex2D where
  position : ℚ × ℚ
  color : ℚ × ℚ × ℚ × ℚ
deriving DecidableEq

/-- Modelled from the spec: an axis-aligned `Rectangle` of f32 logical
pixels. -/
structure Rectangle where
  x : ℚ
  y : ℚ
  width : ℚ
  height : ℚ
deriving DecidableEq

/-- Modelled from the spec: `iced_graphics::layer::Mesh` — the
`buffers` field (`Mesh2D`: vertices and u32 indices) flattened in,
plus the origin offset and clip rectangle. -/
structure Mesh where
  vertices : List Vertex2D
  indices : List Nat
  origin : ℚ × ℚ
  clip_bounds : Rectangle
deriving DecidableEq

/-! ### Encoder commands -/

/-- Models `wgpu::LoadOp`. -/
inductive LoadOp where
  | Clear
  | Load
deriving DecidableEq

/-- A bind group: its handle plus the handles of the resources it was
created over (`wgpu::BindGroupDescriptor::bindings`).  A bind group
captures resources at creation time; it does not follow later
replacement of a buffer handle elsewhere. -/
structure BindGroup where
  id : Nat
  resources : List Nat
deriving DecidableEq

/-- Commands recorded on the command encoder / render pass.  The scissor
command stores its operands (`mesh.clip_bounds` and `scale_factor`)
because the scaling `*` and `.snap()` it feeds them to are implemented
in `iced_graphics`, outside `src/`, and no claim concerns their values. -/
inductive GpuCmd where
  | copyBufferToBuffer (src srcOffset dst dstOffset size : Nat)
  | beginRenderPass (attachment : Nat) (resolveTarget : Option Nat)
      (loadOp : LoadOp)
  | endRenderPass
  | setPipeline (id : Nat)
  | setScissorRect (clip_bounds : Rectangle) (scale_factor : ℚ)
  | setBindGroup (index : Nat) (group : BindGroup)
      (dynamicOffsets : List Nat)
  | setIndexBuffer (buffer : Nat) (byteOffset : Nat)
  | setVertexBuffer (slot : Nat) (buffer : Nat) (byteOffset : Nat)
  | drawIndexed (indexCount baseVertex instanceCount : Nat)
  | draw (vertexCount instanceCount : Nat)
deriving DecidableEq

/-! ### Blend state -/

/-- Models the `wgpu::BlendFactor` values used by the source. -/
inductive BlendFactor where
  | Zero
  | One
  | SrcAlpha
  | OneMinusSrcAlpha
deriving DecidableEq

/-- Models `wgpu::BlendOperation` (only `Add` appears). -/
inductive BlendOperation where
  | Add
deriving DecidableEq

/-- Models `wgpu::BlendDescriptor`. -/
structure BlendDescriptor where
  src_factor : BlendFactor
  dst_factor : BlendFactor
  operation : BlendOperation
deriving DecidableEq

/-- Models `wgpu::ColorStateDescriptor` (format kept as an opaque handle;
`write_mask` as the `ColorWrite` bit set). -/
structure ColorStateDescriptor where
  format : Nat
  color_blend : BlendDescriptor
  alpha_blend : BlendDescriptor
  write_mask : Nat
deriving DecidableEq

/-- The color state of the triangle pipeline (`triangle.rs`,
`Pipeline::new`, `color_states`). -/
def triangle_color_state (format : Nat) : ColorStateDescriptor :=
  { format := format
    color_blend :=
      { src_factor := BlendFactor.SrcAlpha
        dst_factor := BlendFactor.OneMinusSrcAlpha
        operation := BlendOperation.Add }
    alpha_blend :=
      { src_factor := BlendFactor.One
        dst_factor := BlendFactor.OneMinusSrcAlpha
        operation := BlendOperation.Add }
    write_mask := 15 }

/-- The color state of the MSAA blit pipeline (`msaa.rs`, `Blit::new`,
`color_states`). -/
def blit_color_state (format : Nat) : ColorStateDescriptor :=
  { format := format
    color_blend :=
      { src_factor := BlendFactor.SrcAlpha
        dst_factor := BlendFactor.OneMinusSrcAlpha
        operation := BlendOperation.Add }
    alpha_blend :=
      { src_factor := BlendFactor.One
        dst_factor := BlendFactor.OneMinusSrcAlpha
        operation := BlendOperation.Add }
    write_mask := 15 }

/-- Numeric meaning of a blend factor at a given source alpha. -/
def BlendFactor.eval (f : BlendFactor) (srcAlpha : ℚ) : ℚ :=
  match f with
  | BlendFactor.Zero => 0
  | BlendFactor.One => 1
  | BlendFactor.SrcAlpha => srcAlpha
  | BlendFactor.OneMinusSrcAlpha => 1 - srcAlpha

/-- Numeric meaning of a blend descriptor: combine one source and one
destination channel value (`Add` is the only operation). -/
def BlendDescriptor.eval (bd : BlendDescriptor) (src dst srcAlpha : ℚ) : ℚ :=
  match bd.operation with
  | BlendOperation.Add =>
      src * bd.src_factor.eval srcAlpha + dst * bd.dst_factor.eval srcAlpha

/-- Modelled from the spec: the straight-alpha color blend formula
`color = src*srcAlpha + dst*(1-srcAlpha)`. -/
def spec_color_blend (src dst srcAlpha : ℚ) : ℚ :=
  src * srcAlpha + dst * (1 - srcAlpha)

/-- Modelled from the spec: the straight-alpha alpha blend formula
`alpha = src + dst*(1-srcAlpha)`. -/
def spec_alpha_blend (src dst srcAlpha : ℚ) : ℚ :=
  src + dst * (1 - srcAlpha)

/-- Models `Device::create_render_pipeline`: the color state and
sample count are taken (the defs `triangle_color_state` /
`blit_color_state` are what the two `new` functions pass here); the
result is a fresh handle. -/
def Device.createRenderPipeline (d : Device) (_colorState : ColorStateDescriptor)
    (_sampleCount : Nat) : Nat × Device :=
  d.freshId

/-! ### MSAA resolver (`triangle/msaa.rs`) -/

/-- Modelled from the spec: `settings::Antialiasing` (outside `src/`)
fixes a sample count of 2, 4, 8 or 16. -/
inductive Antialiasing where
  | MSAAx2
  | MSAAx4
  | MSAAx8
  | MSAAx16
deriving DecidableEq

/-- Models `Antialiasing::sample_count()`. -/
def Antialiasing.sample_count : Antialiasing → Nat
  | Antialiasing.MSAAx2 => 2
  | Antialiasing.MSAAx4 => 4
  | Antialiasing.MSAAx8 => 8
  | Antialiasing.MSAAx16 => 16

/-- The `Targets` record of `msaa.rs`: the multisampled attachment view,
the single-sampled resolve view, the bind group referencing the resolve
view, and the size they were allocated for. -/
structure Targets where
  attachment : Nat
  resolve : Nat
  bind_group : BindGroup
  width : Nat
  height : Nat
deriving DecidableEq

/-- Models `Targets::new`: creates the multisampled attachment texture, the
resolve texture, their default views, and the bind group over the
resolve view — five fresh GPU objects, in source order. -/
def Targets.new (device : Device) (_format : Nat) (_texture_layout : Nat)
    (_sample_count width height : Nat) : Targets × Device :=
  let rAttachmentTex := device.freshId
  let rResolveTex := rAttachmentTex.2.freshId
  let rAttachmentView := rResolveTex.2.freshId
  let rResolveView := rAttachmentView.2.freshId
  let rBindGroup := rResolveView.2.freshId
  ({ attachment := rAttachmentView.1
     resolve := rResolveView.1
     bind_group := ⟨rBindGroup.1, [rResolveView.1]⟩
     width := width
     height := height }, rBindGroup.2)

/-- The `Blit` resolver of `msaa.rs`. -/
structure Blit where
  format : Nat
  pipeline : Nat
  constants : BindGroup
  texture_layout : Nat
  sample_count : Nat
  targetsCache : Option Targets
deriving DecidableEq

/-- Models `Blit::new`: sampler, constant (sampler) bind-group layout and bind
group, texture bind-group layout, pipeline layout, the two shader
modules, and the single-sampled blit render pipeline with
`blit_color_state`; no targets yet. -/
def Blit.new (device : Device) (format : Nat) (antialiasing : Antialiasing) :
    Blit × Device :=
  let rSampler := device.freshId
  let rConstantLayout := rSampler.2.freshId
  let rConstantBindGroup := rConstantLayout.2.freshId
  let rTextureLayout := rConstantBindGroup.2.freshId
  let rLayout := rTextureLayout.2.freshId
  let rVs := rLayout.2.freshId
  let rFs := rVs.2.freshId
  let rPipeline := rFs.2.createRenderPipeline (blit_color_state format) 1
  ({ format := format
     pipeline := rPipeline.1
     constants := ⟨rConstantBindGroup.1, [rSampler.1]⟩
     texture_layout := rTextureLayout.1
     sample_count := antialiasing.sample_count
     targetsCache := none }, rPipeline.2)

/-- Models `Blit::targets(device, width, height)`: lazily allocate on first
call; reallocate whenever the cached size differs from the request;
return the (attachment view, resolve view) pair of the cached targets. -/
def Blit.targets (b : Blit) (device : Device) (width height : Nat) :
    (Nat × Nat) × Blit × Device :=
  match b.targetsCache with
  | none =>
      let r := Targets.new device b.format b.texture_layout b.sample_count
        width height
      ((r.1.attachment, r.1.resolve), { b with targetsCache := some r.1 }, r.2)
  | some t =>
      if t.width ≠ width ∨ t.height ≠ height then
        let r := Targets.new device b.format b.texture_layout b.sample_count
          width height
        ((r.1.attachment, r.1.resolve), { b with targetsCache := some r.1 }, r.2)
      else
        ((t.attachment, t.resolve), b, device)

/-- Models `Blit::draw(encoder, target)`: unconditionally unwraps the cached
targets (`none` models the panic), then records the compositing pass:
load-existing-contents pass on `target`, blit pipeline, sampler bind
group, resolve-texture bind group, one unindexed 6-vertex draw. -/
def Blit.draw (b : Blit) (target : Nat) : Option (List GpuCmd) :=
  match b.targetsCache with
  | none => none
  | some t =>
      some
        [GpuCmd.beginRenderPass target none LoadOp.Load,
         GpuCmd.setPipeline b.pipeline,
         GpuCmd.setBindGroup 0 b.constants [],
         GpuCmd.setBindGroup 1 t.bind_group [],
         GpuCmd.draw 6 1,
         GpuCmd.endRenderPass]

/-! ### Triangle pipeline (`triangle.rs`) -/

/-- The triangle `Pipeline`: render pipeline, optional MSAA resolver,
the uniform bind group created once at construction, and the three
growable buffers. -/
structure Pipeline where
  pipeline : Nat
  blit : Option Blit
  constants : BindGroup
  uniforms_buffer : Buffer
  vertex_buffer : Buffer
  index_buffer : Buffer
deriving DecidableEq

/-- Models `Pipeline::new(device, format, antialiasing)`: constant bind-group
layout, the uniforms buffer (100 elements, UNIFORM|COPY_DST), the
constant bind group over the current handle of that buffer, pipeline layout,
shader modules, the triangle render pipeline with
`triangle_color_state` and the antialiasing sample count, the optional
`Blit`, and the vertex/index buffers. -/
def Pipeline.new (device : Device) (format : Nat)
    (antialiasing : Option Antialiasing) : Pipeline × Device :=
  let rConstantLayout := device.freshId
  let rConstantsBuffer := Buffer.new rConstantLayout.2 uniforms_size
    UNIFORM_BUFFER_SIZE [BufferUsageFlag.UNIFORM, BufferUsageFlag.COPY_DST]
  let rConstantBindGroup := rConstantsBuffer.2.freshId
  let constant_bind_group : BindGroup :=
    ⟨rConstantBindGroup.1, [rConstantsBuffer.1.raw]⟩
  let rLayout := rConstantBindGroup.2.freshId
  let rVs := rLayout.2.freshId
  let rFs := rVs.2.freshId
  let sampleCount := match antialiasing with
    | some a => a.sample_count
    | none => 1
  let rPipeline := rFs.2.createRenderPipeline (triangle_color_state format)
    sampleCount
  let rBlit : Option Blit × Device := match antialiasing with
    | some a =>
        let r := Blit.new rPipeline.2 format a
        (some r.1, r.2)
    | none => (none, rPipeline.2)
  let rVertexBuffer := Buffer.new rBlit.2 vertex2d_size VERTEX_BUFFER_SIZE
    [BufferUsageFlag.VERTEX, BufferUsageFlag.COPY_DST]
  let rIndexBuffer := Buffer.new rVertexBuffer.2 u32_size INDEX_BUFFER_SIZE
    [BufferUsageFlag.INDEX, BufferUsageFlag.COPY_DST]
  ({ pipeline := rPipeline.1
     blit := rBlit.1
     constants := constant_bind_group
     uniforms_buffer := rConstantsBuffer.1
     vertex_buffer := rVertexBuffer.1
     index_buffer := rIndexBuffer.1 }, rIndexBuffer.2)

/-- Accumulator of the upload loop in `Pipeline::draw` (the local
variables `uniforms`, `offsets`, `last_vertex`, `last_index`, plus the
threaded device and the copy commands recorded so far). -/
structure UploadState where
  uniforms : List Uniforms
  offsets : List (Nat × Nat × Nat)
  last_vertex : Nat
  last_index : Nat
  device : Device
  cmds : List GpuCmd
deriving DecidableEq

/-- One iteration of the upload loop of `Pipeline::draw`: combine the
transform, stage the vertices and indices of the mesh into fresh COPY_SRC
buffers, record the two copies into the persistent vertex/index buffers
at the running byte offsets, push the uniform record and the
`(last_vertex, last_index, index_count)` triple, and advance the
running totals. -/
def uploadMesh (vertexRaw indexRaw : Nat) (transformation : Transformation)
    (st : UploadState) (mesh : Mesh) : UploadState :=
  let transform := Uniforms.ofTransformation
    (Transformation.mul transformation
      (Transformation.translate mesh.origin.1 mesh.origin.2))
  let rVertexStaging := st.device.createBufferRaw
    (vertex2d_size * mesh.vertices.length)
  let rIndexStaging := rVertexStaging.2.createBufferRaw
    (u32_size * mesh.indices.length)
  { uniforms := st.uniforms ++ [transform]
    offsets := st.offsets ++ [(st.last_vertex, st.last_index,
      mesh.indices.length)]
    last_vertex := st.last_vertex + mesh.vertices.length
    last_index := st.last_index + mesh.indices.length
    device := rIndexStaging.2
    cmds := st.cmds ++
      [GpuCmd.copyBufferToBuffer rVertexStaging.1 0 vertexRaw
        (vertex2d_size * st.last_vertex)
        (vertex2d_size * mesh.vertices.length),
       GpuCmd.copyBufferToBuffer rIndexStaging.1 0 indexRaw
        (u32_size * st.last_index)
        (u32_size * mesh.indices.length)] }

/-- The whole upload loop of `Pipeline::draw`, starting from empty
accumulators. -/
def uploadMeshes (vertexRaw indexRaw : Nat) (transformation : Transformation)
    (device : Device) (meshes : List Mesh) : UploadState :=
  meshes.foldl (uploadMesh vertexRaw indexRaw transformation)
    ⟨[], [], 0, 0, device, []⟩

/-- The dynamic uniform offset passed for mesh `i`:
`(size_of::<Uniforms>() * i) as u32` — the cast truncates to 32 bits. -/
def dynamic_uniform_offset (i : Nat) : Nat :=
  (uniforms_size * i) % 2 ^ 32

/-- The per-mesh command sequence of the render-pass loop in
`Pipeline::draw`: scissor from the clip bounds of the mesh, the constant
bind group at the dynamic offset of the mesh, index and vertex buffers
at the recorded byte offsets, and the indexed draw of its index count
(`as u32`), single instance. -/
def perMeshCmds (constants : BindGroup) (vertexRaw indexRaw : Nat)
    (scale_factor : ℚ) (pairs : List (Mesh × Nat × Nat × Nat)) :
    List GpuCmd :=
  (pairs.enum.map fun p =>
    [GpuCmd.setScissorRect p.2.1.clip_bounds scale_factor,
     GpuCmd.setBindGroup 0 constants [dynamic_uniform_offset p.1],
     GpuCmd.setIndexBuffer indexRaw (p.2.2.2.1 * u32_size),
     GpuCmd.setVertexBuffer 0 vertexRaw (p.2.2.1 * vertex2d_size),
     GpuCmd.drawIndexed (p.2.2.2.2 % 2 ^ 32) 0 1]).flatten

/-! The locals of `Pipeline::draw` (the totals fold, the three
`ensure_capacity` results, the upload loop, the uniform staging buffer
and the `Blit::targets` call) are promoted to named definitions so that
theorems can speak about the intermediate states; `Pipeline.draw` below
chains them exactly as the source does. -/

/-- The `(total_vertices, total_indices)` fold at the top of
`Pipeline::draw`. -/
def drawTotals (meshes : List Mesh) : Nat × Nat :=
  meshes.foldl
    (fun acc m => (acc.1 + m.vertices.length, acc.2 + m.indices.length))
    (0, 0)

/-- Models `self.uniforms_buffer.ensure_capacity(device, meshes.len())`. -/
def drawGrowU (p : Pipeline) (device : Device) (meshes : List Mesh) :
    Buffer × Device :=
  p.uniforms_buffer.ensure_capacity device meshes.length

/-- Models `self.vertex_buffer.ensure_capacity(device, total_vertices)`. -/
def drawGrowV (p : Pipeline) (device : Device) (meshes : List Mesh) :
    Buffer × Device :=
  p.vertex_buffer.ensure_capacity (drawGrowU p device meshes).2
    (drawTotals meshes).1

/-- Models `self.index_buffer.ensure_capacity(device, total_indices)`. -/
def drawGrowI (p : Pipeline) (device : Device) (meshes : List Mesh) :
    Buffer × Device :=
  p.index_buffer.ensure_capacity (drawGrowV p device meshes).2
    (drawTotals meshes).2

/-- The state after the upload loop of `Pipeline::draw` (run against the
grown vertex/index buffers). -/
def drawUploadState (p : Pipeline) (device : Device)
    (transformation : Transformation) (meshes : List Mesh) : UploadState :=
  uploadMeshes (drawGrowV p device meshes).1.raw
    (drawGrowI p device meshes).1.raw transformation
    (drawGrowI p device meshes).2 meshes

/-- The staging buffer `create_buffer_with_data(uniforms.as_bytes(),
COPY_SRC)` holding all per-mesh uniforms. -/
def drawStaging (p : Pipeline) (device : Device)
    (transformation : Transformation) (meshes : List Mesh) : Nat × Device :=
  (drawUploadState p device transformation meshes).device.createBufferRaw
    (uniforms_size * (drawUploadState p device transformation
      meshes).uniforms.length)

/-- The per-mesh staging copies followed by the single uniform upload
copy into the persistent uniform buffer. -/
def drawUploadCmds (p : Pipeline) (device : Device)
    (transformation : Transformation) (meshes : List Mesh) : List GpuCmd :=
  (drawUploadState p device transformation meshes).cmds ++
    [GpuCmd.copyBufferToBuffer
      (drawStaging p device transformation meshes).1 0
      (drawGrowU p device meshes).1.raw 0
      (uniforms_size * (drawUploadState p device transformation
        meshes).uniforms.length)]

/-- The `blit.targets(device, target_width, target_height)` call the
antialiasing branch of `Pipeline::draw` makes. -/
def drawTargetsCall (p : Pipeline) (blit : Blit) (device : Device)
    (transformation : Transformation) (meshes : List Mesh)
    (target_width target_height : Nat) : (Nat × Nat) × Blit × Device :=
  blit.targets (drawStaging p device transformation meshes).2 target_width
    target_height

/-- The render-pass command sequence of `Pipeline::draw` for a given
attachment / resolve target / load op. -/
def drawPassCmds (p : Pipeline) (device : Device)
    (transformation : Transformation) (scale_factor : ℚ)
    (meshes : List Mesh) (attachment : Nat) (resolveTarget : Option Nat)
    (loadOp : LoadOp) : List GpuCmd :=
  [GpuCmd.beginRenderPass attachment resolveTarget loadOp,
   GpuCmd.setPipeline p.pipeline] ++
  perMeshCmds p.constants (drawGrowV p device meshes).1.raw
    (drawGrowI p device meshes).1.raw scale_factor
    (meshes.zip (drawUploadState p device transformation meshes).offsets) ++
  [GpuCmd.endRenderPass]

/-- The pipeline state `Pipeline::draw` leaves behind: the (possibly
grown) buffers and the (possibly reallocated) resolver. -/
def drawResultPipeline (p : Pipeline) (device : Device)
    (meshes : List Mesh) (blit : Option Blit) : Pipeline :=
  { p with
    blit := blit
    uniforms_buffer := (drawGrowU p device meshes).1
    vertex_buffer := (drawGrowV p device meshes).1
    index_buffer := (drawGrowI p device meshes).1 }

/-- Models `Pipeline::draw`: totals, capacity growth, upload loop, the single
uniform upload copy, the render pass (MSAA attachment with clear when
antialiasing is on, the caller-provided target with load otherwise),
the per-mesh draw loop, and finally the compositing pass of the
resolver.  The `Option` result models the panic inside the unwrap in
`Blit::draw`. -/
def Pipeline.draw (p : Pipeline) (device : Device) (encoder : List GpuCmd)
    (target : Nat) (target_width target_height : Nat)
    (transformation : Transformation) (scale_factor : ℚ)
    (meshes : List Mesh) : Option (Pipeline × Device × List GpuCmd) :=
  match p.blit with
  | some blit =>
      match ((drawTargetsCall p blit device transformation meshes
          target_width target_height).2.1).draw target with
      | none => none
      | some blitCmds =>
          some (drawResultPipeline p device meshes
              (some (drawTargetsCall p blit device transformation meshes
                target_width target_height).2.1),
            (drawTargetsCall p blit device transformation meshes
              target_width target_height).2.2,
            encoder ++ drawUploadCmds p device transformation meshes ++
              drawPassCmds p device transformation scale_factor meshes
                (drawTargetsCall p blit device transformation meshes
                  target_width target_height).1.1
                (some (drawTargetsCall p blit device transformation meshes
                  target_width target_height).1.2)
                LoadOp.Clear ++
              blitCmds)
  | none =>
      some (drawResultPipeline p device meshes none,
        (drawStaging p device transformation meshes).2,
        encoder ++ drawUploadCmds p device transformation meshes ++
          drawPassCmds p device transformation scale_factor meshes target
            none LoadOp.Load)


/-! ### Test fixtures -/

/-- A mesh with `nv` vertices and `ni` indices (contents immaterial). -/
def testMesh (nv ni : Nat) : Mesh :=
  { vertices := List.replicate nv ⟨(0, 0), (0, 0, 0, 0)⟩
    indices := List.replicate ni 0
    origin := (0, 0)
    clip_bounds := ⟨0, 0, 0, 0⟩ }

/-- A fresh device. -/
def testDevice : Device := ⟨0, []⟩

/-- The uniforms buffer exactly as `Pipeline::new` creates it. -/
def testUniformBuffer : Buffer :=
  (Buffer.new testDevice uniforms_size UNIFORM_BUFFER_SIZE
    [BufferUsageFlag.UNIFORM, BufferUsageFlag.COPY_DST]).1

/-- The device state after creating `testUniformBuffer`. -/
def testUniformDevice : Device :=
  (Buffer.new testDevice uniforms_size UNIFORM_BUFFER_SIZE
    [BufferUsageFlag.UNIFORM, BufferUsageFlag.COPY_DST]).2

/-! ### Growable-buffer lemmas -/

lemma ensure_capacity_size (b : Buffer) (d : Device) (n : Nat) :
    ((b.ensure_capacity d n).1).size = max b.size n := by
  unfold Buffer.ensure_capacity
  split
  · simp only []
    omega
  · simp only []
    omega

lemma ensure_capacity_of_le (b : Buffer) (d : Device) (n : Nat)
    (h : n ≤ b.size) : b.ensure_capacity d n = (b, d) := by
  unfold Buffer.ensure_capacity
  rw [if_neg (by omega)]

/-- A sequence of `ensure_capacity` calls, threading buffer and device. -/
def ensure_capacity_runs (b : Buffer) (d : Device) (ns : List Nat) :
    Buffer × Device :=
  ns.foldl (fun bd n => bd.1.ensure_capacity bd.2 n) (b, d)

lemma ensure_capacity_runs_cons (b : Buffer) (d : Device) (n : Nat)
    (ns : List Nat) :
    ensure_capacity_runs b d (n :: ns) =
      ensure_capacity_runs (b.ensure_capacity d n).1
        (b.ensure_capacity d n).2 ns := by
  simp [ensure_capacity_runs]

lemma ensure_capacity_runs_size (ns : List Nat) :
    ∀ (b : Buffer) (d : Device),
      (ensure_capacity_runs b d ns).1.size = ns.foldl max b.size := by
  induction ns with
  | nil => intro b d; rfl
  | cons n ns ih =>
      intro b d
      rw [ensure_capacity_runs_cons, ih, List.foldl_cons,
        ensure_capacity_size]

/-- Claim C2 counterexample: the uniforms buffer is created with initial
capacity 100; a single `ensure_capacity(5)` call leaves the capacity at
100, not at 5 = the maximum of all requested sizes so far. -/
theorem ensure_capacity_counterexample :
    (testUniformBuffer.ensure_capacity testUniformDevice 5).1.size ≠ 5 := by
  decide

/-- Claim C2 (amended): for any sequence of `ensure_capacity(n)` calls
on a growable buffer, the resulting capacity equals the maximum of the
initial capacity of the buffer and all requested `n` so far, and a call with
`n ≤ current capacity` performs no reallocation: the buffer (handle and
capacity) and the device (fresh-id counter and allocation log) are
returned unchanged. -/
theorem ensure_capacity_max_of_initial_and_requests (b : Buffer)
    (d : Device) (ns : List Nat) (n : Nat) :
    (ensure_capacity_runs b d ns).1.size = ns.foldl max b.size
    ∧ (n ≤ b.size → b.ensure_capacity d n = (b, d)) :=
  ⟨ensure_capacity_runs_size ns b d, fun h => ensure_capacity_of_le b d n h⟩

/-- Witness for the amended claim C2, at the uniforms buffer of
`Pipeline::new` (capacity 100) and the request sequence `[5, 200, 50]`. -/
theorem ensure_capacity_max_witness :
    (ensure_capacity_runs testUniformBuffer testUniformDevice
        [5, 200, 50]).1.size = [5, 200, 50].foldl max testUniformBuffer.size
    ∧ testUniformBuffer.ensure_capacity testUniformDevice 5
        = (testUniformBuffer, testUniformDevice) := by
  have h := ensure_capacity_max_of_initial_and_requests testUniformBuffer
    testUniformDevice [5, 200, 50] 5
  exact ⟨h.1, h.2 (by decide)⟩

/-! ### Offset prefix-sum lemmas (claim C3) -/

/-- The offsets the upload loop records when started at running totals
`(lv, li)`. -/
def buildOffsets (lv li : Nat) : List Mesh → List (Nat × Nat × Nat)
  | [] => []
  | m :: ms =>
      (lv, li, m.indices.length) ::
        buildOffsets (lv + m.vertices.length) (li + m.indices.length) ms

lemma uploadFoldl_offsets (vr ir : Nat) (tr : Transformation) :
    ∀ (ms : List Mesh) (st : UploadState),
      (ms.foldl (uploadMesh vr ir tr) st).offsets
        = st.offsets ++ buildOffsets st.last_vertex st.last_index ms := by
  intro ms
  induction ms with
  | nil => intro st; simp [buildOffsets]
  | cons m ms ih =>
      intro st
      rw [List.foldl_cons, ih, buildOffsets]
      simp [uploadMesh]

lemma buildOffsets_getElem :
    ∀ (ms : List Mesh) (lv li i : Nat) (h : i < ms.length),
      (buildOffsets lv li ms)[i]? =
        some (lv + ((ms.take i).map (fun m => m.vertices.length)).sum,
              li + ((ms.take i).map (fun m => m.indices.length)).sum,
              (ms.get ⟨i, h⟩).indices.length) := by
  intro ms
  induction ms with
  | nil => intro lv li i h; simp at h
  | cons m ms ih =>
      intro lv li i h
      cases i with
      | zero => simp [buildOffsets]
      | succ j =>
          have hj : j < ms.length := by simpa using h
          rw [buildOffsets]
          simp only [List.getElem?_cons_succ]
          rw [ih _ _ j hj]
          simp [Nat.add_assoc]

/-- Claim C3: the per-mesh `(vertex_offset, index_offset, index_count)`
triples recorded by the upload loop of `Pipeline::draw` are the running
prefix sums of the vertex and index counts of the preceding meshes, in input
order. -/
theorem draw_offsets_are_running_sums (vertexRaw indexRaw : Nat)
    (transformation : Transformation) (device : Device)
    (meshes : List Mesh) (i : Nat) (h : i < meshes.length) :
    (uploadMeshes vertexRaw indexRaw transformation device
        meshes).offsets[i]? =
      some (((meshes.take i).map (fun m => m.vertices.length)).sum,
            ((meshes.take i).map (fun m => m.indices.length)).sum,
            (meshes.get ⟨i, h⟩).indices.length) := by
  unfold uploadMeshes
  rw [uploadFoldl_offsets]
  simpa using buildOffsets_getElem meshes 0 0 i h

/-- Witness for claim C3, at the example given in the spec: meshes with vertex
counts `[3, 4, 5]` and index counts `[3, 6, 9]` record, for mesh 2, the
vertex offset 0+3+4 = 7, the index offset 0+3+6 = 9 and the index
count 9. -/
theorem draw_offsets_witness :
    (uploadMeshes 0 1 Transformation.identity testDevice
        [testMesh 3 3, testMesh 4 6, testMesh 5 9]).offsets[2]? =
      some (7, 9, 9) := by
  have h := draw_offsets_are_running_sums 0 1 Transformation.identity
    testDevice [testMesh 3 3, testMesh 4 6, testMesh 5 9] 2 (by decide)
  rw [h]
  decide

/-! ### Uniform stride and dynamic offsets (claim C4) -/

/-- Claim C4 counterexample: the dynamic offset the source passes is the
`as u32` cast of `size_of::<Uniforms>() * i`, so for mesh index
`i = 2^24` the passed offset is `(2^24 * 256) mod 2^32 = 0`, not
`i × 256`. -/
theorem dynamic_offset_truncation_counterexample :
    dynamic_uniform_offset 16777216 ≠ 16777216 * 256 := by
  decide

/-- Claim C4 (amended): the per-mesh uniform record has a stride of
exactly 256 bytes, and the dynamic offset passed for mesh `i` is
`(i × 256) mod 2^32` (the `as u32` cast), which equals `i × 256`
whenever `i < 2^24`, and is in every case a multiple of the assumed
256-byte minimum uniform buffer alignment. -/
theorem uniform_stride_and_dynamic_offset (i : Nat) :
    uniforms_size = 256
    ∧ dynamic_uniform_offset i = (i * 256) % 2 ^ 32
    ∧ 256 ∣ dynamic_uniform_offset i
    ∧ (i < 2 ^ 24 → dynamic_uniform_offset i = i * 256) := by
  refine ⟨by decide, ?_, ?_, ?_⟩
  · unfold dynamic_uniform_offset
    rw [show uniforms_size = 256 from by decide, Nat.mul_comm]
  · unfold dynamic_uniform_offset
    exact (Nat.dvd_mod_iff (by norm_num)).mpr
      (by rw [show uniforms_size = 256 from by decide]; exact Dvd.intro i rfl)
  · intro hlt
    unfold dynamic_uniform_offset
    rw [show uniforms_size = 256 from by decide]
    rw [Nat.mod_eq_of_lt (by omega), Nat.mul_comm]

/-- Witness for the amended claim C4, at mesh index 3: stride 256 and
dynamic offset 768. -/
theorem uniform_stride_witness :
    uniforms_size = 256 ∧ dynamic_uniform_offset 3 = 3 * 256 := by
  have h := uniform_stride_and_dynamic_offset 3
  exact ⟨h.1, h.2.2.2 (by decide)⟩

/-! ### MSAA target-cache lemmas (claims C6, C10) -/

/-- Well-formedness of a `Blit` against a device: any cached target ids
were allocated by the device (so they are below its fresh-id counter). -/
def Blit.wf (b : Blit) (d : Device) : Prop :=
  match b.targetsCache with
  | none => True
  | some t =>
      t.attachment < d.nextId ∧ t.resolve < d.nextId
        ∧ t.bind_group.id < d.nextId

lemma blit_wf_none (b : Blit) (d : Device) (hc : b.targetsCache = none) :
    b.wf d := by
  unfold Blit.wf
  rw [hc]
  trivial

lemma blit_wf_some (b : Blit) (d : Device) (t : Targets)
    (hc : b.targetsCache = some t) :
    b.wf d ↔ (t.attachment < d.nextId ∧ t.resolve < d.nextId
      ∧ t.bind_group.id < d.nextId) := by
  unfold Blit.wf
  rw [hc]

lemma blit_new_wf (d : Device) (format : Nat) (aa : Antialiasing) :
    ((Blit.new d format aa).1).wf (Blit.new d format aa).2 :=
  blit_wf_none _ _ rfl

/-- The `Targets::new` call `Blit::targets` makes when it (re)allocates. -/
def targetsNewOf (b : Blit) (d : Device) (w h : Nat) : Targets × Device :=
  Targets.new d b.format b.texture_layout b.sample_count w h

lemma targets_new_fields (d : Device) (f tl sc w h : Nat) :
    (Targets.new d f tl sc w h).1.attachment = d.nextId + 2
    ∧ (Targets.new d f tl sc w h).1.resolve = d.nextId + 3
    ∧ (Targets.new d f tl sc w h).1.bind_group.id = d.nextId + 4
    ∧ (Targets.new d f tl sc w h).2.nextId = d.nextId + 5
    ∧ (Targets.new d f tl sc w h).1.width = w
    ∧ (Targets.new d f tl sc w h).1.height = h :=
  ⟨rfl, rfl, rfl, rfl, rfl, rfl⟩

lemma blit_targets_fresh (b : Blit) (d : Device) (w h : Nat)
    (hc : b.targetsCache = none) :
    b.targets d w h =
      (((targetsNewOf b d w h).1.attachment,
        (targetsNewOf b d w h).1.resolve),
       { b with targetsCache := some (targetsNewOf b d w h).1 },
       (targetsNewOf b d w h).2) := by
  unfold Blit.targets targetsNewOf
  rw [hc]

lemma blit_targets_cached (b : Blit) (d : Device) (w h : Nat) (t : Targets)
    (hc : b.targetsCache = some t) (hw : t.width = w) (hh : t.height = h) :
    b.targets d w h = ((t.attachment, t.resolve), b, d) := by
  have hcond : ¬(t.width ≠ w ∨ t.height ≠ h) := by
    push_neg
    exact ⟨hw, hh⟩
  unfold Blit.targets
  rw [hc]
  exact if_neg hcond

lemma blit_targets_realloc (b : Blit) (d : Device) (w h : Nat) (t : Targets)
    (hc : b.targetsCache = some t) (hcond : t.width ≠ w ∨ t.height ≠ h) :
    b.targets d w h =
      (((targetsNewOf b d w h).1.attachment,
        (targetsNewOf b d w h).1.resolve),
       { b with targetsCache := some (targetsNewOf b d w h).1 },
       (targetsNewOf b d w h).2) := by
  unfold Blit.targets targetsNewOf
  rw [hc]
  exact if_pos hcond

lemma blit_targets_spec (b : Blit) (d : Device) (w h : Nat) :
    ∃ t : Targets,
      (b.targets d w h).2.1.targetsCache = some t
      ∧ t.width = w ∧ t.height = h
      ∧ (b.targets d w h).1 = (t.attachment, t.resolve) := by
  cases hc : b.targetsCache with
  | none =>
      rw [blit_targets_fresh b d w h hc]
      obtain ⟨_, _, _, _, hw, hh⟩ := targets_new_fields d b.format
        b.texture_layout b.sample_count w h
      exact ⟨(targetsNewOf b d w h).1, rfl, hw, hh, rfl⟩
  | some t =>
      by_cases hcond : t.width ≠ w ∨ t.height ≠ h
      · rw [blit_targets_realloc b d w h t hc hcond]
        obtain ⟨_, _, _, _, hw, hh⟩ := targets_new_fields d b.format
          b.texture_layout b.sample_count w h
        exact ⟨(targetsNewOf b d w h).1, rfl, hw, hh, rfl⟩
      · push_neg at hcond
        rw [blit_targets_cached b d w h t hc hcond.1 hcond.2]
        exact ⟨t, hc, hcond.1, hcond.2, rfl⟩

lemma blit_targets_wf (b : Blit) (d : Device) (w h : Nat) (hwf : b.wf d) :
    ((b.targets d w h).2.1).wf ((b.targets d w h).2.2)
    ∧ d.nextId ≤ (b.targets d w h).2.2.nextId := by
  cases hc : b.targetsCache with
  | none =>
      rw [blit_targets_fresh b d w h hc]
      obtain ⟨ha, hr, hb, hn, _, _⟩ := targets_new_fields d b.format
        b.texture_layout b.sample_count w h
      constructor
      · rw [blit_wf_some _ _ (targetsNewOf b d w h).1 rfl]
        unfold targetsNewOf
        rw [ha, hr, hb, hn]
        omega
      · show d.nextId ≤ (targetsNewOf b d w h).2.nextId
        unfold targetsNewOf
        rw [hn]
        omega
  | some t =>
      by_cases hcond : t.width ≠ w ∨ t.height ≠ h
      · rw [blit_targets_realloc b d w h t hc hcond]
        obtain ⟨ha, hr, hb, hn, _, _⟩ := targets_new_fields d b.format
          b.texture_layout b.sample_count w h
        constructor
        · rw [blit_wf_some _ _ (targetsNewOf b d w h).1 rfl]
          unfold targetsNewOf
          rw [ha, hr, hb, hn]
          omega
        · show d.nextId ≤ (targetsNewOf b d w h).2.nextId
          unfold targetsNewOf
          rw [hn]
          omega
      · push_neg at hcond
        rw [blit_targets_cached b d w h t hc hcond.1 hcond.2]
        exact ⟨hwf, Nat.le_refl _⟩

/-- Claim C6: starting from any well-formed resolver state, after a
`targets(w, h)` call, an immediately repeated `targets(w, h)` call
returns the same attachment/resolve views, the same resolver state and
the same device (no allocation at all); a call with a differing size
`(w2, h2)` instead allocates a fresh attachment/resolve pair and derived
bind group — all distinct from the old ones — and replaces the cached
targets with the new ones. -/
theorem msaa_targets_cache_behavior (b : Blit) (d : Device)
    (w h w2 h2 : Nat) (hwf : b.wf d) (hne : ¬(w2 = w ∧ h2 = h)) :
    ((b.targets d w h).2.1.targets ((b.targets d w h).2.2) w h
        = ((b.targets d w h).1, (b.targets d w h).2.1, (b.targets d w h).2.2))
    ∧ (∃ t1 t2 : Targets,
        (b.targets d w h).2.1.targetsCache = some t1
        ∧ t1.width = w ∧ t1.height = h
        ∧ (b.targets d w h).1 = (t1.attachment, t1.resolve)
        ∧ ((b.targets d w h).2.1.targets ((b.targets d w h).2.2) w2
            h2).2.1.targetsCache = some t2
        ∧ t2.width = w2 ∧ t2.height = h2
        ∧ ((b.targets d w h).2.1.targets ((b.targets d w h).2.2) w2 h2).1
            = (t2.attachment, t2.resolve)
        ∧ t2.attachment ≠ t1.attachment
        ∧ t2.resolve ≠ t1.resolve
        ∧ t2.bind_group.id ≠ t1.bind_group.id) := by
  obtain ⟨t1, hc1, hw1, hh1, hpair1⟩ := blit_targets_spec b d w h
  obtain ⟨hwf1, _⟩ := blit_targets_wf b d w h hwf
  obtain ⟨hlt1, hlt2, hlt3⟩ := (blit_wf_some _ _ t1 hc1).mp hwf1
  constructor
  · rw [blit_targets_cached _ _ w h t1 hc1 hw1 hh1, hpair1]
  · have hcond : t1.width ≠ w2 ∨ t1.height ≠ h2 := by
      by_contra hcontra
      push_neg at hcontra
      exact hne ⟨by rw [← hcontra.1, hw1], by rw [← hcontra.2, hh1]⟩
    rw [blit_targets_realloc _ _ w2 h2 t1 hc1 hcond]
    obtain ⟨ha, hr, hb, _, hw, hh⟩ := targets_new_fields
      ((b.targets d w h).2.2) ((b.targets d w h).2.1).format
      ((b.targets d w h).2.1).texture_layout
      ((b.targets d w h).2.1).sample_count w2 h2
    refine ⟨t1,
      (targetsNewOf ((b.targets d w h).2.1) ((b.targets d w h).2.2) w2
        h2).1,
      hc1, hw1, hh1, hpair1, rfl, hw, hh, rfl, ?_, ?_, ?_⟩
    · show (Targets.new _ _ _ _ w2 h2).1.attachment ≠ t1.attachment
      rw [ha]
      omega
    · show (Targets.new _ _ _ _ w2 h2).1.resolve ≠ t1.resolve
      rw [hr]
      omega
    · show (Targets.new _ _ _ _ w2 h2).1.bind_group.id ≠ t1.bind_group.id
      rw [hb]
      omega

/-- The resolver used by the witnesses for claims C6 and C10. -/
def testBlit : Blit := (Blit.new testDevice 0 Antialiasing.MSAAx4).1

/-- The device state after constructing `testBlit`. -/
def testBlitDevice : Device := (Blit.new testDevice 0 Antialiasing.MSAAx4).2

/-- Witness for claim C6: a fresh resolver, `targets(800, 600)` twice
(identical result, no allocation), against the differing size
`(801, 600)`. -/
theorem msaa_targets_cache_witness :
    (testBlit.wf testBlitDevice)
    ∧ ¬((801 : Nat) = 800 ∧ (600 : Nat) = 600)
    ∧ ((testBlit.targets testBlitDevice 800 600).2.1.targets
        ((testBlit.targets testBlitDevice 800 600).2.2) 800 600
        = ((testBlit.targets testBlitDevice 800 600).1,
           (testBlit.targets testBlitDevice 800 600).2.1,
           (testBlit.targets testBlitDevice 800 600).2.2)) := by
  have h := msaa_targets_cache_behavior testBlit testBlitDevice 800 600
    801 600 (blit_new_wf testDevice 0 Antialiasing.MSAAx4) (by omega)
  exact ⟨blit_new_wf testDevice 0 Antialiasing.MSAAx4, by omega, h.1⟩

/-- A sequence of `targets` calls applied to a resolver. -/
def applyTargetRuns (b : Blit) (d : Device) (calls : List (Nat × Nat)) :
    Blit × Device :=
  calls.foldl
    (fun bd c => ((bd.1.targets bd.2 c.1 c.2).2.1,
      (bd.1.targets bd.2 c.1 c.2).2.2)) (b, d)

lemma applyTargetRuns_cons (b : Blit) (d : Device) (c : Nat × Nat)
    (cs : List (Nat × Nat)) :
    applyTargetRuns b d (c :: cs) =
      applyTargetRuns (b.targets d c.1 c.2).2.1 (b.targets d c.1 c.2).2.2
        cs := by
  simp [applyTargetRuns]

lemma targets_isSome_after (b : Blit) (d : Device) (w h : Nat) :
    ((b.targets d w h).2.1).targetsCache.isSome := by
  obtain ⟨t, hc, _⟩ := blit_targets_spec b d w h
  rw [hc]
  rfl

lemma applyTargetRuns_preserves_some (cs : List (Nat × Nat)) :
    ∀ (b : Blit) (d : Device), b.targetsCache.isSome →
      ((applyTargetRuns b d cs).1).targetsCache.isSome := by
  induction cs with
  | nil => intro b d h; exact h
  | cons c cs ih =>
      intro b d _
      rw [applyTargetRuns_cons]
      exact ih _ _ (targets_isSome_after b d c.1 c.2)

lemma draw_isSome_of_cache (b : Blit) (target : Nat)
    (h : b.targetsCache.isSome) : (b.draw target).isSome := by
  unfold Blit.draw
  cases hc : b.targetsCache with
  | none =>
      rw [hc] at h
      exact absurd h (by simp)
  | some t => rfl

/-- Claim C10: `Blit::draw` succeeds (the unwrap panic is unreachable)
after any nonempty sequence of `targets` calls since construction, and
panics (`none`) when called on a freshly constructed resolver before any
`targets` call. -/
theorem blit_draw_unwrap_safety (d : Device) (format : Nat)
    (aa : Antialiasing) (calls : List (Nat × Nat)) (target : Nat) :
    (calls ≠ [] →
      ((applyTargetRuns (Blit.new d format aa).1 (Blit.new d format aa).2
          calls).1.draw target).isSome)
    ∧ (Blit.new d format aa).1.draw target = none := by
  constructor
  · intro hne
    match calls, hne with
    | c :: cs, _ =>
        apply draw_isSome_of_cache
        rw [applyTargetRuns_cons]
        exact applyTargetRuns_preserves_some cs _ _
          (targets_isSome_after (Blit.new d format aa).1
            (Blit.new d format aa).2 c.1 c.2)
  · rfl

/-- Witness for claim C10: one `targets(800, 600)` call makes `draw`
succeed; a fresh resolver panics in `draw`. -/
theorem blit_draw_unwrap_witness :
    ([((800 : Nat), (600 : Nat))] ≠ ([] : List (Nat × Nat)))
    ∧ ((applyTargetRuns (Blit.new testDevice 0 Antialiasing.MSAAx4).1
          (Blit.new testDevice 0 Antialiasing.MSAAx4).2
          [(800, 600)]).1.draw 7).isSome
    ∧ (Blit.new testDevice 0 Antialiasing.MSAAx4).1.draw 7 = none := by
  have h := blit_draw_unwrap_safety testDevice 0 Antialiasing.MSAAx4
    [(800, 600)] 7
  exact ⟨by simp, h.1 (by simp), h.2⟩

/-! ### Draw-level lemmas (claims C1, C5, C7, C8) -/

/-- Is the command a buffer-to-buffer copy whose destination is `dst`? -/
def isCopyInto (dst : Nat) : GpuCmd → Bool
  | GpuCmd.copyBufferToBuffer _ _ dstField _ _ => dstField == dst
  | _ => false

/-- Is the command an indexed (per-mesh) draw? -/
def isDrawIndexedCmd : GpuCmd → Bool
  | GpuCmd.drawIndexed _ _ _ => true
  | _ => false

/-- Does the command open a render pass? -/
def isBeginPassCmd : GpuCmd → Bool
  | GpuCmd.beginRenderPass _ _ _ => true
  | _ => false

/-- Does the command close a render pass? -/
def isEndPassCmd : GpuCmd → Bool
  | GpuCmd.endRenderPass => true
  | _ => false

/-- Does the command open a render pass with clear-on-load? -/
def isClearPassCmd : GpuCmd → Bool
  | GpuCmd.beginRenderPass _ _ LoadOp.Clear => true
  | _ => false

lemma uploadFoldl_cmds_filter (vr ir x : Nat) (tr : Transformation)
    (hx1 : vr ≠ x) (hx2 : ir ≠ x) :
    ∀ (ms : List Mesh) (st : UploadState),
      ((ms.foldl (uploadMesh vr ir tr) st).cmds).filter (isCopyInto x)
        = st.cmds.filter (isCopyInto x) := by
  intro ms
  induction ms with
  | nil => intro st; rfl
  | cons m ms ih =>
      intro st
      rw [List.foldl_cons, ih]
      simp [uploadMesh, List.filter_append, isCopyInto, hx1, hx2]

lemma uploadFoldl_uniforms_length (vr ir : Nat) (tr : Transformation) :
    ∀ (ms : List Mesh) (st : UploadState),
      (ms.foldl (uploadMesh vr ir tr) st).uniforms.length
        = st.uniforms.length + ms.length := by
  intro ms
  induction ms with
  | nil => intro st; simp
  | cons m ms ih =>
      intro st
      rw [List.foldl_cons, ih]
      simp [uploadMesh]
      omega

lemma uploadMeshes_uniforms_length (vr ir : Nat) (tr : Transformation)
    (d : Device) (meshes : List Mesh) :
    (uploadMeshes vr ir tr d meshes).uniforms.length = meshes.length := by
  unfold uploadMeshes
  rw [uploadFoldl_uniforms_length]
  simp

lemma perMeshCmds_filter_copy (x : Nat) (constants : BindGroup)
    (vr ir : Nat) (sf : ℚ) (pairs : List (Mesh × Nat × Nat × Nat)) :
    (perMeshCmds constants vr ir sf pairs).filter (isCopyInto x) = [] := by
  apply List.filter_eq_nil_iff.mpr
  intro c hc
  unfold perMeshCmds at hc
  rw [List.mem_flatten] at hc
  obtain ⟨l, hl, hcl⟩ := hc
  rw [List.mem_map] at hl
  obtain ⟨pr, _, rfl⟩ := hl
  simp only [List.mem_cons, List.mem_singleton] at hcl
  rcases hcl with rfl | rfl | rfl | rfl | rfl | h
  · simp [isCopyInto]
  · simp [isCopyInto]
  · simp [isCopyInto]
  · simp [isCopyInto]
  · simp [isCopyInto]
  · simp at h

lemma perMeshCmds_countP_drawIndexed (constants : BindGroup)
    (vr ir : Nat) (sf : ℚ) :
    ∀ pairs : List (Mesh × Nat × Nat × Nat),
      (perMeshCmds constants vr ir sf pairs).countP isDrawIndexedCmd
        = pairs.length := by
  intro pairs
  unfold perMeshCmds
  rw [show pairs.length = pairs.enum.length from (List.enum_length).symm]
  generalize pairs.enum = l
  induction l with
  | nil => rfl
  | cons e l ih =>
      rw [List.map_cons, List.flatten_cons, List.countP_append, ih]
      simp [isDrawIndexedCmd, List.countP_cons]
      omega

lemma blit_draw_eq (b : Blit) (target : Nat) (t : Targets)
    (hc : b.targetsCache = some t) :
    b.draw target =
      some [GpuCmd.beginRenderPass target none LoadOp.Load,
        GpuCmd.setPipeline b.pipeline,
        GpuCmd.setBindGroup 0 b.constants [],
        GpuCmd.setBindGroup 1 t.bind_group [],
        GpuCmd.draw 6 1,
        GpuCmd.endRenderPass] := by
  unfold Blit.draw
  rw [hc]

/-- Well-formedness of a triangle `Pipeline` against a device: the three
growable buffers were allocated by the device and are pairwise
distinct.  `Pipeline::new` establishes it and `draw` preserves it. -/
def Pipeline.wf (p : Pipeline) (d : Device) : Prop :=
  p.uniforms_buffer.raw < d.nextId
  ∧ p.vertex_buffer.raw < d.nextId
  ∧ p.index_buffer.raw < d.nextId
  ∧ p.uniforms_buffer.raw ≠ p.vertex_buffer.raw
  ∧ p.uniforms_buffer.raw ≠ p.index_buffer.raw
  ∧ p.vertex_buffer.raw ≠ p.index_buffer.raw

lemma ec_cases (b : Buffer) (d : Device) (n : Nat) :
    (b.ensure_capacity d n = (b, d))
    ∨ ((b.ensure_capacity d n).1.raw = d.nextId
        ∧ (b.ensure_capacity d n).2.nextId = d.nextId + 1) := by
  unfold Buffer.ensure_capacity
  split
  · right
    exact ⟨rfl, rfl⟩
  · left
    rfl

/-! ### Blend state (claim C9) -/

/-- Claim C9: the MSAA blit pipeline is configured with exactly the same
blend state as the triangle pipeline, and that blend state realizes the
straight-alpha formulas `color = src×srcAlpha + dst×(1−srcAlpha)` and
`alpha = src + dst×(1−srcAlpha)` with the additive blend operation. -/
theorem blit_blend_matches_triangle (format : Nat) :
    blit_color_state format = triangle_color_state format
    ∧ (triangle_color_state format).color_blend.operation = BlendOperation.Add
    ∧ (triangle_color_state format).alpha_blend.operation = BlendOperation.Add
    ∧ (∀ src dst srcAlpha : ℚ,
        ((triangle_color_state format).color_blend.eval src dst srcAlpha
            = spec_color_blend src dst srcAlpha)
        ∧ ((triangle_color_state format).alpha_blend.eval src dst srcAlpha
            = spec_alpha_blend src dst srcAlpha)) := by
  refine ⟨rfl, rfl, rfl, fun src dst srcAlpha => ⟨?_, ?_⟩⟩
  · simp [BlendDescriptor.eval, BlendFactor.eval, triangle_color_state,
      spec_color_blend]
  · simp [BlendDescriptor.eval, BlendFactor.eval, triangle_color_state,
      spec_alpha_blend]

lemma pipeline_draw_none_eq (p : Pipeline) (hblit : p.blit = none)
    (device : Device) (encoder : List GpuCmd) (target tw th : Nat)
    (tr : Transformation) (sf : ℚ) (meshes : List Mesh) :
    Pipeline.draw p device encoder target tw th tr sf meshes =
      some (drawResultPipeline p device meshes none,
        (drawStaging p device tr meshes).2,
        encoder ++ drawUploadCmds p device tr meshes ++
          drawPassCmds p device tr sf meshes target none LoadOp.Load) := by
  unfold Pipeline.draw
  rw [hblit]

lemma pipeline_draw_some_eq (p : Pipeline) (blit : Blit)
    (hblit : p.blit = some blit) (device : Device) (encoder : List GpuCmd)
    (target tw th : Nat) (tr : Transformation) (sf : ℚ)
    (meshes : List Mesh) (t : Targets)
    (hc : ((drawTargetsCall p blit device tr meshes tw
      th).2.1).targetsCache = some t) :
    Pipeline.draw p device encoder target tw th tr sf meshes =
      some (drawResultPipeline p device meshes
          (some (drawTargetsCall p blit device tr meshes tw th).2.1),
        (drawTargetsCall p blit device tr meshes tw th).2.2,
        encoder ++ drawUploadCmds p device tr meshes ++
          drawPassCmds p device tr sf meshes
            (drawTargetsCall p blit device tr meshes tw th).1.1
            (some (drawTargetsCall p blit device tr meshes tw th).1.2)
            LoadOp.Clear ++
          [GpuCmd.beginRenderPass target none LoadOp.Load,
           GpuCmd.setPipeline
             (drawTargetsCall p blit device tr meshes tw th).2.1.pipeline,
           GpuCmd.setBindGroup 0
             (drawTargetsCall p blit device tr meshes tw th).2.1.constants
             [],
           GpuCmd.setBindGroup 1 t.bind_group [],
           GpuCmd.draw 6 1,
           GpuCmd.endRenderPass]) := by
  unfold Pipeline.draw
  simp only [hblit]
  rw [blit_draw_eq _ target t hc]

/-- Is the command a buffer-to-buffer copy? -/
def isCopyCmd : GpuCmd → Bool
  | GpuCmd.copyBufferToBuffer _ _ _ _ _ => true
  | _ => false

lemma uploadFoldl_cmds_all_copies (vr ir : Nat) (tr : Transformation) :
    ∀ (ms : List Mesh) (st : UploadState),
      (∀ c ∈ st.cmds, isCopyCmd c = true) →
      ∀ c ∈ (ms.foldl (uploadMesh vr ir tr) st).cmds, isCopyCmd c = true := by
  intro ms
  induction ms with
  | nil => intro st h; exact h
  | cons m ms ih =>
      intro st h
      rw [List.foldl_cons]
      apply ih
      intro c hc
      simp only [uploadMesh, List.mem_append] at hc
      rcases hc with hc | hc
      · exact h c hc
      · simp only [List.mem_cons, List.mem_singleton] at hc
        rcases hc with rfl | rfl | h2
        · rfl
        · rfl
        · simp at h2

lemma drawUploadCmds_all_copies (p : Pipeline) (device : Device)
    (tr : Transformation) (meshes : List Mesh) :
    ∀ c ∈ drawUploadCmds p device tr meshes, isCopyCmd c = true := by
  intro c hc
  unfold drawUploadCmds drawUploadState uploadMeshes at hc
  rw [List.mem_append] at hc
  rcases hc with hc | hc
  · exact uploadFoldl_cmds_all_copies _ _ tr meshes _
      (by intro c hc; simp at hc) c hc
  · rw [List.mem_singleton] at hc
    subst hc
    rfl

lemma copies_countP_clear (l : List GpuCmd)
    (h : ∀ c ∈ l, isCopyCmd c = true) : l.countP isClearPassCmd = 0 := by
  apply List.countP_eq_zero.mpr
  intro c hc
  have := h c hc
  cases c <;> simp_all [isCopyCmd, isClearPassCmd]

lemma perMeshCmds_countP_clear (constants : BindGroup) (vr ir : Nat)
    (sf : ℚ) (pairs : List (Mesh × Nat × Nat × Nat)) :
    (perMeshCmds constants vr ir sf pairs).countP isClearPassCmd = 0 := by
  apply List.countP_eq_zero.mpr
  intro c hc
  unfold perMeshCmds at hc
  rw [List.mem_flatten] at hc
  obtain ⟨l, hl, hcl⟩ := hc
  rw [List.mem_map] at hl
  obtain ⟨pr, _, rfl⟩ := hl
  simp only [List.mem_cons, List.mem_singleton] at hcl
  rcases hcl with rfl | rfl | rfl | rfl | rfl | h
  · simp [isClearPassCmd]
  · simp [isClearPassCmd]
  · simp [isClearPassCmd]
  · simp [isClearPassCmd]
  · simp [isClearPassCmd]
  · simp at h

/-- Claim C5: in `Pipeline::draw`, when antialiasing is off the render
pass targets the caller-provided target with load-existing-contents and
the recorded commands contain no clear-on-load pass at all; when
antialiasing is on the render pass targets the multisampled attachment
of the resolver — cached for exactly the requested target size —
resolving into its resolve view, with clear-on-load. -/
theorem draw_render_pass_target (p : Pipeline) (device : Device)
    (target tw th : Nat) (tr : Transformation) (sf : ℚ)
    (meshes : List Mesh) (p2 : Pipeline) (d2 : Device) (cmds : List GpuCmd)
    (hdraw : Pipeline.draw p device [] target tw th tr sf meshes
      = some (p2, d2, cmds)) :
    (p.blit = none →
      GpuCmd.beginRenderPass target none LoadOp.Load ∈ cmds
      ∧ cmds.countP isClearPassCmd = 0)
    ∧ (∀ blit : Blit, p.blit = some blit →
      ∃ t : Targets,
        p2.blit = some (drawTargetsCall p blit device tr meshes tw th).2.1
        ∧ ((drawTargetsCall p blit device tr meshes tw
            th).2.1).targetsCache = some t
        ∧ t.width = tw ∧ t.height = th
        ∧ GpuCmd.beginRenderPass t.attachment (some t.resolve) LoadOp.Clear
            ∈ cmds) := by
  constructor
  · intro hblit
    rw [pipeline_draw_none_eq p hblit device [] target tw th tr sf meshes]
      at hdraw
    simp only [Option.some.injEq, Prod.mk.injEq] at hdraw
    obtain ⟨-, -, hcmds⟩ := hdraw
    subst hcmds
    constructor
    · simp [drawPassCmds]
    · rw [List.nil_append, List.countP_append,
        copies_countP_clear _ (drawUploadCmds_all_copies p device tr
          meshes)]
      unfold drawPassCmds
      rw [List.countP_append, List.countP_append,
        perMeshCmds_countP_clear]
      simp [List.countP_cons, isClearPassCmd]
  · intro blit hblit
    obtain ⟨t, hc, hw, hh, hpair⟩ := blit_targets_spec blit
      (drawStaging p device tr meshes).2 tw th
    have hc2 : ((drawTargetsCall p blit device tr meshes tw
        th).2.1).targetsCache = some t := hc
    rw [pipeline_draw_some_eq p blit hblit device [] target tw th tr sf
      meshes t hc2] at hdraw
    simp only [Option.some.injEq, Prod.mk.injEq] at hdraw
    obtain ⟨hp2, -, hcmds⟩ := hdraw
    refine ⟨t, ?_, hc2, hw, hh, ?_⟩
    · rw [← hp2]
      rfl
    · subst hcmds
      have hatt : (drawTargetsCall p blit device tr meshes tw th).1.1
          = t.attachment := by
        have : (drawTargetsCall p blit device tr meshes tw th).1
            = (t.attachment, t.resolve) := hpair
        rw [this]
      have hres : (drawTargetsCall p blit device tr meshes tw th).1.2
          = t.resolve := by
        have : (drawTargetsCall p blit device tr meshes tw th).1
            = (t.attachment, t.resolve) := hpair
        rw [this]
      rw [← hatt, ← hres]
      simp [drawPassCmds]

/-- The antialiased pipeline used by the witnesses for claims C5, C7
and C8. -/
def testPipelineAA : Pipeline :=
  (Pipeline.new testDevice 0 (some Antialiasing.MSAAx4)).1

/-- The device state after constructing `testPipelineAA`. -/
def testPipelineAADevice : Device :=
  (Pipeline.new testDevice 0 (some Antialiasing.MSAAx4)).2

/-- The result of the witness draw call for claim C5: one small mesh
drawn with 4× antialiasing. -/
def testDrawAA : Pipeline × Device × List GpuCmd :=
  (Pipeline.draw testPipelineAA testPipelineAADevice [] 7 800 600
    Transformation.identity 1 [testMesh 1 3]).getD
    (testPipelineAA, testPipelineAADevice, [])

/-- Witness for claim C5: the antialiased draw of one mesh begins its
render pass on the attachment of the resolver with clear-on-load. -/
theorem draw_render_pass_target_witness :
    (Pipeline.draw testPipelineAA testPipelineAADevice [] 7 800 600
        Transformation.identity 1 [testMesh 1 3]
      = some (testDrawAA.1, testDrawAA.2.1, testDrawAA.2.2))
    ∧ (∀ blit : Blit, testPipelineAA.blit = some blit →
      ∃ t : Targets,
        testDrawAA.1.blit = some (drawTargetsCall testPipelineAA blit
          testPipelineAADevice Transformation.identity [testMesh 1 3] 800
          600).2.1
        ∧ ((drawTargetsCall testPipelineAA blit testPipelineAADevice
            Transformation.identity [testMesh 1 3] 800 600).2.1).targetsCache
            = some t
        ∧ t.width = 800 ∧ t.height = 600
        ∧ GpuCmd.beginRenderPass t.attachment (some t.resolve) LoadOp.Clear
            ∈ testDrawAA.2.2) := by
  have hdraw : Pipeline.draw testPipelineAA testPipelineAADevice [] 7 800
      600 Transformation.identity 1 [testMesh 1 3]
      = some (testDrawAA.1, testDrawAA.2.1, testDrawAA.2.2) := by decide
  exact ⟨hdraw,
    (draw_render_pass_target testPipelineAA testPipelineAADevice 7 800 600
      Transformation.identity 1 [testMesh 1 3] testDrawAA.1 testDrawAA.2.1
      testDrawAA.2.2 hdraw).2⟩

lemma ec_facts (b : Buffer) (d : Device) (n : Nat) :
    ((b.ensure_capacity d n).1.raw = b.raw
      ∧ (b.ensure_capacity d n).2.nextId = d.nextId)
    ∨ ((b.ensure_capacity d n).1.raw = d.nextId
      ∧ (b.ensure_capacity d n).2.nextId = d.nextId + 1) := by
  rcases ec_cases b d n with h | h
  · left
    rw [h]
    exact ⟨rfl, rfl⟩
  · right
    exact h

lemma grown_buffers_distinct (p : Pipeline) (device : Device)
    (meshes : List Mesh) (hwf : p.wf device) :
    (drawGrowV p device meshes).1.raw ≠ (drawGrowU p device meshes).1.raw
    ∧ (drawGrowI p device meshes).1.raw
        ≠ (drawGrowU p device meshes).1.raw := by
  obtain ⟨hu, hv, hi, huv, hui, hvi⟩ := hwf
  have fU := ec_facts p.uniforms_buffer device meshes.length
  have fV := ec_facts p.vertex_buffer (drawGrowU p device meshes).2
    (drawTotals meshes).1
  have fI := ec_facts p.index_buffer (drawGrowV p device meshes).2
    (drawTotals meshes).2
  simp only [drawGrowU, drawGrowV, drawGrowI] at fV fI ⊢
  rcases fU with ⟨a1, a2⟩ | ⟨a1, a2⟩ <;>
    rcases fV with ⟨b1, b2⟩ | ⟨b1, b2⟩ <;>
    rcases fI with ⟨c1, c2⟩ | ⟨c1, c2⟩ <;>
    exact ⟨by omega, by omega⟩

lemma drawPassCmds_filter_copy (x : Nat) (p : Pipeline) (device : Device)
    (tr : Transformation) (sf : ℚ) (meshes : List Mesh) (att : Nat)
    (res : Option Nat) (lo : LoadOp) :
    (drawPassCmds p device tr sf meshes att res lo).filter (isCopyInto x)
      = [] := by
  unfold drawPassCmds
  rw [List.filter_append, List.filter_append, perMeshCmds_filter_copy]
  simp [isCopyInto]

lemma drawUploadCmds_filter_copy (p : Pipeline) (device : Device)
    (tr : Transformation) (meshes : List Mesh)
    (hv : (drawGrowV p device meshes).1.raw
      ≠ (drawGrowU p device meshes).1.raw)
    (hi : (drawGrowI p device meshes).1.raw
      ≠ (drawGrowU p device meshes).1.raw) :
    (drawUploadCmds p device tr meshes).filter
        (isCopyInto (drawGrowU p device meshes).1.raw)
      = [GpuCmd.copyBufferToBuffer (drawStaging p device tr meshes).1 0
          (drawGrowU p device meshes).1.raw 0
          (uniforms_size * meshes.length)] := by
  unfold drawUploadCmds
  rw [List.filter_append]
  have h1 : (drawUploadState p device tr meshes).cmds.filter
      (isCopyInto (drawGrowU p device meshes).1.raw) = [] := by
    unfold drawUploadState uploadMeshes
    rw [uploadFoldl_cmds_filter _ _ _ tr hv hi]
    rfl
  have h2 : (drawUploadState p device tr meshes).uniforms.length
      = meshes.length := uploadMeshes_uniforms_length _ _ _ _ _
  rw [h1, h2]
  simp [isCopyInto]

/-- Claim C7: `Pipeline::draw` records exactly one buffer-to-buffer copy
into the persistent uniform buffer (the one left in the pipeline state),
from the single contiguous staging buffer, starting at destination
offset 0, of length `meshes.len() × 256` — regardless of the number of
meshes. -/
theorem uniform_upload_single_copy (p : Pipeline) (device : Device)
    (target tw th : Nat) (tr : Transformation) (sf : ℚ)
    (meshes : List Mesh) (p2 : Pipeline) (d2 : Device) (cmds : List GpuCmd)
    (hwf : p.wf device)
    (hdraw : Pipeline.draw p device [] target tw th tr sf meshes
      = some (p2, d2, cmds)) :
    p2.uniforms_buffer = (drawGrowU p device meshes).1
    ∧ cmds.filter (isCopyInto p2.uniforms_buffer.raw)
      = [GpuCmd.copyBufferToBuffer (drawStaging p device tr meshes).1 0
          p2.uniforms_buffer.raw 0 (uniforms_size * meshes.length)] := by
  obtain ⟨hv, hi⟩ := grown_buffers_distinct p device meshes hwf
  cases hblit : p.blit with
  | none =>
      rw [pipeline_draw_none_eq p hblit device [] target tw th tr sf
        meshes] at hdraw
      simp only [Option.some.injEq, Prod.mk.injEq] at hdraw
      obtain ⟨hp2, -, hcmds⟩ := hdraw
      have hub : p2.uniforms_buffer = (drawGrowU p device meshes).1 := by
        rw [← hp2]
        rfl
      refine ⟨hub, ?_⟩
      subst hcmds
      rw [hub, List.nil_append, List.filter_append,
        drawUploadCmds_filter_copy p device tr meshes hv hi,
        drawPassCmds_filter_copy]
      rfl
  | some blit =>
      obtain ⟨t, hc, hw, hh, hpair⟩ := blit_targets_spec blit
        (drawStaging p device tr meshes).2 tw th
      rw [pipeline_draw_some_eq p blit hblit device [] target tw th tr sf
        meshes t hc] at hdraw
      simp only [Option.some.injEq, Prod.mk.injEq] at hdraw
      obtain ⟨hp2, -, hcmds⟩ := hdraw
      have hub : p2.uniforms_buffer = (drawGrowU p device meshes).1 := by
        rw [← hp2]
        rfl
      refine ⟨hub, ?_⟩
      subst hcmds
      rw [hub, List.nil_append, List.filter_append, List.filter_append,
        drawUploadCmds_filter_copy p device tr meshes hv hi,
        drawPassCmds_filter_copy]
      simp [isCopyInto]

lemma pipeline_new_wf (d : Device) (format : Nat)
    (aa : Option Antialiasing) :
    ((Pipeline.new d format aa).1).wf (Pipeline.new d format aa).2 := by
  cases aa with
  | none =>
      refine ⟨?_, ?_, ?_, ?_, ?_, ?_⟩
      · show d.nextId + 1 < d.nextId + 9
        omega
      · show d.nextId + 7 < d.nextId + 9
        omega
      · show d.nextId + 8 < d.nextId + 9
        omega
      · show d.nextId + 1 ≠ d.nextId + 7
        omega
      · show d.nextId + 1 ≠ d.nextId + 8
        omega
      · show d.nextId + 7 ≠ d.nextId + 8
        omega
  | some a =>
      refine ⟨?_, ?_, ?_, ?_, ?_, ?_⟩
      · show d.nextId + 1 < d.nextId + 17
        omega
      · show d.nextId + 15 < d.nextId + 17
        omega
      · show d.nextId + 16 < d.nextId + 17
        omega
      · show d.nextId + 1 ≠ d.nextId + 15
        omega
      · show d.nextId + 1 ≠ d.nextId + 16
        omega
      · show d.nextId + 15 ≠ d.nextId + 16
        omega

/-- Witness for claim C7: the antialiased test pipeline is well formed
and its draw of one mesh contains exactly the single uniform upload
copy. -/
theorem uniform_upload_single_copy_witness :
    (testPipelineAA.wf testPipelineAADevice)
    ∧ (Pipeline.draw testPipelineAA testPipelineAADevice [] 7 800 600
        Transformation.identity 1 [testMesh 1 3]
      = some (testDrawAA.1, testDrawAA.2.1, testDrawAA.2.2))
    ∧ testDrawAA.2.2.filter (isCopyInto testDrawAA.1.uniforms_buffer.raw)
      = [GpuCmd.copyBufferToBuffer
          (drawStaging testPipelineAA testPipelineAADevice
            Transformation.identity [testMesh 1 3]).1 0
          testDrawAA.1.uniforms_buffer.raw 0
          (uniforms_size * [testMesh 1 3].length)] := by
  have hwf : testPipelineAA.wf testPipelineAADevice :=
    pipeline_new_wf testDevice 0 (some Antialiasing.MSAAx4)
  have hdraw : Pipeline.draw testPipelineAA testPipelineAADevice [] 7 800
      600 Transformation.identity 1 [testMesh 1 3]
      = some (testDrawAA.1, testDrawAA.2.1, testDrawAA.2.2) := by decide
  have h := uniform_upload_single_copy testPipelineAA testPipelineAADevice
    7 800 600 Transformation.identity 1 [testMesh 1 3] testDrawAA.1
    testDrawAA.2.1 testDrawAA.2.2 hwf hdraw
  exact ⟨hwf, hdraw, h.2⟩

lemma ensure_capacity_zero (b : Buffer) (d : Device) :
    b.ensure_capacity d 0 = (b, d) :=
  ensure_capacity_of_le b d 0 (Nat.zero_le _)

lemma drawGrowU_nil (p : Pipeline) (device : Device) :
    drawGrowU p device [] = (p.uniforms_buffer, device) := by
  unfold drawGrowU
  exact ensure_capacity_zero _ _

lemma drawGrowV_nil (p : Pipeline) (device : Device) :
    drawGrowV p device [] = (p.vertex_buffer, device) := by
  unfold drawGrowV
  rw [drawGrowU_nil]
  exact ensure_capacity_zero _ _

lemma drawGrowI_nil (p : Pipeline) (device : Device) :
    drawGrowI p device [] = (p.index_buffer, device) := by
  unfold drawGrowI
  rw [drawGrowV_nil]
  exact ensure_capacity_zero _ _

lemma drawUploadState_nil (p : Pipeline) (device : Device)
    (tr : Transformation) :
    drawUploadState p device tr [] = ⟨[], [], 0, 0, device, []⟩ := by
  unfold drawUploadState
  rw [drawGrowV_nil, drawGrowI_nil]
  rfl

lemma drawUploadCmds_nil (p : Pipeline) (device : Device)
    (tr : Transformation) :
    drawUploadCmds p device tr [] =
      [GpuCmd.copyBufferToBuffer (drawStaging p device tr []).1 0
        p.uniforms_buffer.raw 0 0] := by
  unfold drawUploadCmds
  rw [drawUploadState_nil, drawGrowU_nil]
  simp

lemma drawPassCmds_nil (p : Pipeline) (device : Device)
    (tr : Transformation) (sf : ℚ) (att : Nat) (res : Option Nat)
    (lo : LoadOp) :
    drawPassCmds p device tr sf [] att res lo =
      [GpuCmd.beginRenderPass att res lo, GpuCmd.setPipeline p.pipeline,
       GpuCmd.endRenderPass] := by
  unfold drawPassCmds
  rfl

/-- Claim C8: a `Pipeline::draw` call with an empty mesh list leaves all
three buffers untouched (no growth), opens and closes its render pass
with zero per-mesh indexed draws, and when antialiasing is enabled the
pass still clears the MSAA attachment and the resolver still composites
(a full-screen 6-vertex draw) onto the caller-provided target with
load-existing-contents. -/
theorem empty_mesh_draw (p : Pipeline) (device : Device)
    (target tw th : Nat) (tr : Transformation) (sf : ℚ) (p2 : Pipeline)
    (d2 : Device) (cmds : List GpuCmd)
    (hdraw : Pipeline.draw p device [] target tw th tr sf []
      = some (p2, d2, cmds)) :
    p2.uniforms_buffer = p.uniforms_buffer
    ∧ p2.vertex_buffer = p.vertex_buffer
    ∧ p2.index_buffer = p.index_buffer
    ∧ cmds.countP isDrawIndexedCmd = 0
    ∧ 1 ≤ cmds.countP isBeginPassCmd
    ∧ cmds.countP isBeginPassCmd = cmds.countP isEndPassCmd
    ∧ (∀ blit : Blit, p.blit = some blit →
        ∃ t : Targets,
          GpuCmd.beginRenderPass t.attachment (some t.resolve) LoadOp.Clear
            ∈ cmds
          ∧ GpuCmd.beginRenderPass target none LoadOp.Load ∈ cmds
          ∧ GpuCmd.draw 6 1 ∈ cmds) := by
  cases hblit : p.blit with
  | none =>
      rw [pipeline_draw_none_eq p hblit device [] target tw th tr sf []]
        at hdraw
      simp only [Option.some.injEq, Prod.mk.injEq] at hdraw
      obtain ⟨hp2, -, hcmds⟩ := hdraw
      have hu : p2.uniforms_buffer = p.uniforms_buffer := by
        rw [← hp2]
        show (drawGrowU p device []).1 = p.uniforms_buffer
        rw [drawGrowU_nil]
      have hv : p2.vertex_buffer = p.vertex_buffer := by
        rw [← hp2]
        show (drawGrowV p device []).1 = p.vertex_buffer
        rw [drawGrowV_nil]
      have hi : p2.index_buffer = p.index_buffer := by
        rw [← hp2]
        show (drawGrowI p device []).1 = p.index_buffer
        rw [drawGrowI_nil]
      subst hcmds
      rw [drawUploadCmds_nil, drawPassCmds_nil]
      refine ⟨hu, hv, hi, ?_, ?_, ?_, ?_⟩
      · simp [List.countP_cons, isDrawIndexedCmd]
      · simp [List.countP_cons, isBeginPassCmd]
      · simp [List.countP_cons, isBeginPassCmd, isEndPassCmd]
      · intro blit hcontra
        exact absurd hcontra (by simp)
  | some blit =>
      obtain ⟨t, hc, hw, hh, hpair⟩ := blit_targets_spec blit
        (drawStaging p device tr []).2 tw th
      rw [pipeline_draw_some_eq p blit hblit device [] target tw th tr sf
        [] t hc] at hdraw
      simp only [Option.some.injEq, Prod.mk.injEq] at hdraw
      obtain ⟨hp2, -, hcmds⟩ := hdraw
      have hu : p2.uniforms_buffer = p.uniforms_buffer := by
        rw [← hp2]
        show (drawGrowU p device []).1 = p.uniforms_buffer
        rw [drawGrowU_nil]
      have hv : p2.vertex_buffer = p.vertex_buffer := by
        rw [← hp2]
        show (drawGrowV p device []).1 = p.vertex_buffer
        rw [drawGrowV_nil]
      have hi : p2.index_buffer = p.index_buffer := by
        rw [← hp2]
        show (drawGrowI p device []).1 = p.index_buffer
        rw [drawGrowI_nil]
      subst hcmds
      rw [drawUploadCmds_nil, drawPassCmds_nil]
      have hatt : (drawTargetsCall p blit device tr [] tw th).1.1
          = t.attachment := by
        have h : (drawTargetsCall p blit device tr [] tw th).1
            = (t.attachment, t.resolve) := hpair
        rw [h]
      have hres : (drawTargetsCall p blit device tr [] tw th).1.2
          = t.resolve := by
        have h : (drawTargetsCall p blit device tr [] tw th).1
            = (t.attachment, t.resolve) := hpair
        rw [h]
      rw [hatt, hres]
      refine ⟨hu, hv, hi, ?_, ?_, ?_, ?_⟩
      · simp [List.countP_cons, isDrawIndexedCmd]
      · simp [List.countP_cons, isBeginPassCmd]
      · simp [List.countP_cons, isBeginPassCmd, isEndPassCmd]
      · intro blit2 hblit2
        exact ⟨t, by simp, by simp, by simp⟩

/-- The result of the witness draw call for claim C8: an empty mesh list
drawn with 4× antialiasing. -/
def testDrawEmpty : Pipeline × Device × List GpuCmd :=
  (Pipeline.draw testPipelineAA testPipelineAADevice [] 7 800 600
    Transformation.identity 1 []).getD
    (testPipelineAA, testPipelineAADevice, [])

/-- Witness for claim C8: the empty antialiased draw leaves the buffers
unchanged, issues no indexed draw, and still clears and composites. -/
theorem empty_mesh_draw_witness :
    (Pipeline.draw testPipelineAA testPipelineAADevice [] 7 800 600
        Transformation.identity 1 []
      = some (testDrawEmpty.1, testDrawEmpty.2.1, testDrawEmpty.2.2))
    ∧ testDrawEmpty.1.uniforms_buffer = testPipelineAA.uniforms_buffer
    ∧ testDrawEmpty.2.2.countP isDrawIndexedCmd = 0
    ∧ (∀ blit : Blit, testPipelineAA.blit = some blit →
        ∃ t : Targets,
          GpuCmd.beginRenderPass t.attachment (some t.resolve) LoadOp.Clear
            ∈ testDrawEmpty.2.2
          ∧ GpuCmd.beginRenderPass 7 none LoadOp.Load ∈ testDrawEmpty.2.2
          ∧ GpuCmd.draw 6 1 ∈ testDrawEmpty.2.2) := by
  have hdraw : Pipeline.draw testPipelineAA testPipelineAADevice [] 7 800
      600 Transformation.identity 1 []
      = some (testDrawEmpty.1, testDrawEmpty.2.1, testDrawEmpty.2.2) := by
    decide
  have h := empty_mesh_draw testPipelineAA testPipelineAADevice 7 800 600
    Transformation.identity 1 testDrawEmpty.1 testDrawEmpty.2.1
    testDrawEmpty.2.2 hdraw
  exact ⟨hdraw, h.1, h.2.2.2.1, h.2.2.2.2.2.2⟩

/-! ### The stale uniform bind group (claim C1) -/

/-- The pipeline of the claim C1 scenario: freshly constructed, no
antialiasing, so the uniforms buffer has its initial capacity of 100 and
the constant bind group references that buffer (handle 1). -/
def testPipelineNoAA : Pipeline := (Pipeline.new testDevice 0 none).1

/-- The device state after constructing `testPipelineNoAA`. -/
def testPipelineNoAADevice : Device := (Pipeline.new testDevice 0 none).2

/-- A list of 101 meshes: one more than the initial capacity of the
uniform buffer, so
`ensure_capacity` replaces the uniform buffer handle during the draw. -/
def staleMeshes : List Mesh := List.replicate 101 (testMesh 0 0)

/-- The result of drawing `staleMeshes` on the fresh pipeline. -/
def staleDraw : Pipeline × Device × List GpuCmd :=
  (Pipeline.draw testPipelineNoAA testPipelineNoAADevice [] 7 800 600
    Transformation.identity 1 staleMeshes).getD
    (testPipelineNoAA, testPipelineNoAADevice, [])

/-- Is the command a `set_bind_group` whose group was created over
exactly the resource list `rs`? -/
def isBindGroupOver (rs : List Nat) : GpuCmd → Bool
  | GpuCmd.setBindGroup _ g _ => g.resources == rs
  | _ => false

set_option maxRecDepth 100000 in
/-- Claim C1 is violated by the code (evaluation at the failing input):
drawing 101 meshes on a fresh pipeline makes `ensure_capacity` replace
the uniform buffer handle (1 becomes 9); the per-mesh transforms are
copied into the new buffer 9 (exactly one copy, none into 1), yet every
one of the 101 recorded `set_bind_group` commands binds the
construction-time bind group, which references the replaced buffer 1 —
not the buffer the transforms were just copied into. -/
theorem triangle_draw_stale_bind_group :
    (Pipeline.draw testPipelineNoAA testPipelineNoAADevice [] 7 800 600
        Transformation.identity 1 staleMeshes
      = some (staleDraw.1, staleDraw.2.1, staleDraw.2.2))
    ∧ staleDraw.1.constants.resources = [1]
    ∧ staleDraw.1.uniforms_buffer.raw = 9
    ∧ staleDraw.2.2.countP (isCopyInto 9) = 1
    ∧ staleDraw.2.2.countP (isCopyInto 1) = 0
    ∧ staleDraw.2.2.countP (isBindGroupOver [1]) = 101
    ∧ staleDraw.2.2.countP (isBindGroupOver [9]) = 0
    ∧ staleDraw.1.constants.resources
        ≠ [staleDraw.1.uniforms_buffer.raw] := by
  decide

end Iced
